import Mathlib

/-!
Verification of the SNPedia content extraction and normalization pipeline
(`SnpediaParserService`): a shallow embedding of the parser's data model and
operations, followed by theorems settling the specification's claims.

Embedding conventions:
* JavaScript strings are Lean `String`s (indices are characters, which agrees
  with UTF-16 code units on the BMP inputs this parser handles).
* JavaScript numbers arising from `parseInt`/`parseFloat` are `Option Int` /
  `Option ℚ`, with `none` playing the role of `NaN` (the code only ever tests
  these values with `isNaN` or truthiness, so the collapse is faithful).
* A field that JavaScript leaves `undefined` is `none`.
* The cheerio document tree is modelled by `HtmlDoc`, which records exactly the
  query results the extractors read (tables with rows of cells, anchors,
  the population script data, and the serialized html text).
* `parse-mediawiki-template` is an external library; its per-template-name
  result list is an input (`mw : String → List MwVal`).
-/

namespace Snpedia

/-- JavaScript truthiness of a possibly-absent string: `undefined` and `""`
are falsy, every other string is truthy. -/
def truthyS : Option String → Bool
  | none => false
  | some s => s ≠ ""

/-- JavaScript `a || b` on possibly-absent strings. -/
def jsOrS (a b : Option String) : Option String :=
  if truthyS a then a else b

/-- JavaScript string conversion of a possibly-absent string, as performed by
the `+` operator: `undefined` stringifies to `"undefined"`. -/
def jsToStr : Option String → String
  | none => "undefined"
  | some s => s

/-- JavaScript `String.prototype.trim` (whitespace stripped from both ends). -/
def jsTrim (s : String) : String :=
  ((s.data.dropWhile Char.isWhitespace).reverse.dropWhile Char.isWhitespace).reverse.asString

/-- JavaScript `String.prototype.toLowerCase` on the ASCII range. -/
def jsLower (s : String) : String :=
  (s.data.map Char.toLower).asString

/-- JavaScript `String.prototype.includes` (substring containment). -/
def containsSub (s pat : String) : Bool :=
  s.data.tails.any (fun t => pat.data.isPrefixOf t)

/-- JavaScript `String.prototype.startsWith`. -/
def startsWithJS (s pat : String) : Bool :=
  pat.data.isPrefixOf s.data

/-- Numeric value of a run of decimal digit characters. -/
def natOfDigits (ds : List Char) : Nat :=
  ds.foldl (fun n c => 10 * n + (c.toNat - 48)) 0

/-- JavaScript `parseInt(s)` (radix 10): leading whitespace, an optional sign
and the longest prefix of digits; `none` models `NaN`. -/
def parseIntJS (s : String) : Option Int :=
  let cs := s.data.dropWhile Char.isWhitespace
  let p : Int × List Char :=
    match cs with
    | '-' :: rest => (-1, rest)
    | '+' :: rest => (1, rest)
    | _ => (1, cs)
  let ds := p.2.takeWhile Char.isDigit
  if ds.isEmpty then none else some (p.1 * (natOfDigits ds : Int))

/-- Exponent part of a JavaScript float literal (after the `e`): an optional
sign and a digit run; an empty digit run contributes exponent `0`, matching
`parseFloat`'s longest-valid-prefix rule. -/
def expOf (rest : List Char) : Int :=
  let p : Int × List Char :=
    match rest with
    | '-' :: r => (-1, r)
    | '+' :: r => (1, r)
    | _ => (1, rest)
  let eds := p.2.takeWhile Char.isDigit
  if eds.isEmpty then 0 else p.1 * (natOfDigits eds : Int)

/-- JavaScript `parseFloat(s)`: leading whitespace, optional sign, decimal
digits with an optional fraction and exponent; `none` models `NaN`.
(`Infinity` literals do not occur in this parser's inputs and are not
modelled.) -/
def parseFloatJS (s : String) : Option ℚ :=
  let cs := s.data.dropWhile Char.isWhitespace
  let p : Int × List Char :=
    match cs with
    | '-' :: rest => (-1, rest)
    | '+' :: rest => (1, rest)
    | _ => (1, cs)
  let ids := p.2.takeWhile Char.isDigit
  let cs3 := p.2.dropWhile Char.isDigit
  let q : List Char × List Char :=
    match cs3 with
    | '.' :: rest => (rest.takeWhile Char.isDigit, rest.dropWhile Char.isDigit)
    | _ => ([], cs3)
  if ids.isEmpty && q.1.isEmpty then none
  else
    let n : Int := (natOfDigits (ids ++ q.1) : Int)
    let e10 : Int :=
      (match q.2 with
       | 'e' :: rest => expOf rest
       | 'E' :: rest => expOf rest
       | _ => 0) - (q.1.length : Int)
    if 0 ≤ e10 then some (mkRat (p.1 * n * ((10 ^ e10.toNat : Nat) : Int)) 1)
    else some (mkRat (p.1 * n) (10 ^ (-e10).toNat))

/-- First index at which `sub` occurs in `s` (JavaScript `indexOf`, in
characters); `none` when absent. -/
def indexOfStr (s sub : String) : Option Nat :=
  (List.range (s.data.length + 1)).find? (fun i => sub.data.isPrefixOf (s.data.drop i))

/-- JavaScript `s.replace(pat, '')` for a literal pattern: removes the first
occurrence of `pat`, if any. -/
def removeFirstOcc (s pat : String) : String :=
  match indexOfStr s pat with
  | none => s
  | some i => ((s.data.take i) ++ (s.data.drop (i + pat.data.length))).asString

/-- Case-insensitive literal prefix: if `cs` starts with `pat` (given in
lowercase) up to ASCII case, returns the remainder. -/
def dropPrefCI (pat : String) (cs : List Char) : Option (List Char) :=
  if (cs.take pat.data.length).map Char.toLower = pat.data then
    some (cs.drop pat.data.length)
  else none

/-- Case-sensitive literal prefix: if `cs` starts with `pat`, returns the
remainder. -/
def dropPrefCS (pat : String) (cs : List Char) : Option (List Char) :=
  if cs.take pat.data.length = pat.data then some (cs.drop pat.data.length)
  else none

/-- Driver for a global (`/g`) regex scan: attempts a match at every position
left to right; a successful match of length `L` is emitted and the scan
resumes after it, mirroring the `lastIndex` semantics of `String.match` with
a global regex. `att` returns the full matched character sequence (a prefix
of the suffix it is given) or `none`. -/
def globalScan (att : List Char → Option (List Char)) (cs : List Char) : List String :=
  (cs.tails.foldl
    (fun st suf =>
      match st with
      | (Nat.succ k, acc) => (k, acc)
      | (0, acc) =>
        match att suf with
        | some m => (m.length - 1, acc ++ [m.asString])
        | none => (0, acc))
    ((0 : Nat), ([] : List String))).2

/-- First (leftmost) successful application of a matcher, as a non-global
regex match returning one captured string. -/
def firstCap (att : List Char → Option (List Char)) (cs : List Char) : Option String :=
  (cs.tails.findSome? att).map List.asString

/-- A citation reference (`PmidInfo` in the source). `pmid` is optional
because the merge step builds entries from template objects whose `PMID`
field may be missing. -/
structure PmidInfo where
  pmid : Option String
  title : Option String
deriving DecidableEq

/-- One row of the genotype/magnitude table (`GenotypeInfo`). The extractor
only pushes rows whose magnitude parsed, so `magnitude` is total here. -/
structure GenotypeInfo where
  genotype : String
  magnitude : ℚ
  summary : String
  color : String
deriving DecidableEq

/-- A genotype-specific free-text effect (`GenotypeEffect`). -/
structure GenotypeEffect where
  genotype : String
  effect : String
  context : Option String
deriving DecidableEq

/-- An external database link (`ExternalLink`). -/
structure ExternalLink where
  name : String
  url : String
deriving DecidableEq

/-- Result of the free-text annotator `parseContentText`. -/
structure ContentData where
  traits : List String := []
  genotypeEffects : List GenotypeEffect := []
  relatedSNPs : List String := []
  pmids : List PmidInfo := []
  riskAllele : Option String := none
  genderSpecific : Option String := none
  clinicalSignificance : List String := []
deriving DecidableEq

/-- One attempt of `/\[\[([^\]]+)\]\]/` at the head of the input: `[[`, a
non-empty run of characters other than `]`, then `]]`; returns the full
match. -/
def tryBracket : List Char → Option (List Char)
  | '[' :: '[' :: rest =>
    match rest.takeWhile (· ≠ ']'), rest.dropWhile (· ≠ ']') with
    | c :: cc, ']' :: ']' :: _ => some ('[' :: '[' :: ((c :: cc) ++ [']', ']']))
    | _, _ => none
  | _ => none

/-- One attempt of `/\[\[rs\d+\]\]/` at the head of the input. -/
def tryRsLink : List Char → Option (List Char)
  | '[' :: '[' :: 'r' :: 's' :: rest =>
    match rest.takeWhile Char.isDigit, rest.dropWhile Char.isDigit with
    | d :: ds, ']' :: ']' :: _ => some ('[' :: '[' :: 'r' :: 's' :: ((d :: ds) ++ [']', ']']))
    | _, _ => none
  | _ => none

/-- One attempt of `/\[\[rs\d+\(([^)]+)\)\]\]/` at the head of the input,
returning the full match. -/
def tryGenoLink : List Char → Option (List Char)
  | '[' :: '[' :: 'r' :: 's' :: rest =>
    match rest.takeWhile Char.isDigit, rest.dropWhile Char.isDigit with
    | d :: ds, '(' :: rest2 =>
      match rest2.takeWhile (· ≠ ')'), rest2.dropWhile (· ≠ ')') with
      | c :: cc, ')' :: ']' :: ']' :: _ =>
        some ('[' :: '[' :: 'r' :: 's' ::
          ((d :: ds) ++ '(' :: ((c :: cc) ++ [')', ']', ']'])))
      | _, _ => none
    | _, _ => none
  | _ => none

/-- One attempt of `/\[\[rs\d+\(([^)]+)\)\]\]/` returning capture group 1
(the genotype inside the parentheses), used for the inner re-match of each
global match. -/
def tryGenoCap : List Char → Option (List Char)
  | '[' :: '[' :: 'r' :: 's' :: rest =>
    match rest.takeWhile Char.isDigit, rest.dropWhile Char.isDigit with
    | _ :: _, '(' :: rest2 =>
      match rest2.takeWhile (· ≠ ')'), rest2.dropWhile (· ≠ ')') with
      | c :: cc, ')' :: ']' :: ']' :: _ => some (c :: cc)
      | _, _ => none
    | _, _ => none
  | _ => none

/-- One attempt of `/\{\{PMID\|(\d+)([^}]*)\}\}/` at the head of the input,
returning the full match. -/
def tryPmidTpl : List Char → Option (List Char)
  | '\x7b' :: '\x7b' :: 'P' :: 'M' :: 'I' :: 'D' :: '|' :: rest =>
    match rest.takeWhile Char.isDigit, rest.dropWhile Char.isDigit with
    | d :: ds, rest2 =>
      match rest2.dropWhile (· ≠ '\x7d') with
      | '\x7d' :: '\x7d' :: _ =>
        some ('\x7b' :: '\x7b' :: 'P' :: 'M' :: 'I' :: 'D' :: '|' ::
          ((d :: ds) ++ rest2.takeWhile (· ≠ '\x7d') ++ ['\x7d', '\x7d']))
      | _ => none
    | _, _ => none
  | _ => none

/-- One attempt of `/\{\{PMID\|(\d+)([^}]*)\}\}/` returning the two capture
groups (digits, trailing part). -/
def tryPmidCaps : List Char → Option (List Char × List Char)
  | '\x7b' :: '\x7b' :: 'P' :: 'M' :: 'I' :: 'D' :: '|' :: rest =>
    match rest.takeWhile Char.isDigit, rest.dropWhile Char.isDigit with
    | d :: ds, rest2 =>
      match rest2.dropWhile (· ≠ '\x7d') with
      | '\x7d' :: '\x7d' :: _ => some (d :: ds, rest2.takeWhile (· ≠ '\x7d'))
      | _ => none
    | _, _ => none
  | _ => none

/-- One attempt of `/\|(?:title=)?([^|]+)/` at the head of the input,
returning capture group 1. The optional `title=` group is tried greedily
first; if no non-`|` character follows it, the regex backtracks and the
capture starts at the `title=` text itself. -/
def tryTitleCap : List Char → Option (List Char)
  | '|' :: rest =>
    match dropPrefCS "title=" rest with
    | some rest2 =>
      match rest2.takeWhile (· ≠ '|') with
      | c :: cc => some (c :: cc)
      | [] =>
        match rest.takeWhile (· ≠ '|') with
        | c :: cc => some (c :: cc)
        | [] => none
    | none =>
      match rest.takeWhile (· ≠ '|') with
      | c :: cc => some (c :: cc)
      | [] => none
  | _ => none

/-- One attempt of `/(?:risk allele|risk variant) is \(([^)]+)\)/i` at the
head of the input, returning capture group 1 (verbatim, from the original
text). -/
def tryRiskCap (cs : List Char) : Option (List Char) :=
  match (dropPrefCI "risk allele is (" cs).orElse (fun _ => dropPrefCI "risk variant is (" cs) with
  | some rest =>
    match rest.takeWhile (· ≠ ')'), rest.dropWhile (· ≠ ')') with
    | c :: cc, ')' :: _ => some (c :: cc)
    | _, _ => none
  | none => none

/-- Character class `[0-9.e\-×÷]` with the `i` flag (so also `E`). -/
def isPValChar (c : Char) : Bool :=
  c.isDigit || c == '.' || c == 'e' || c == 'E' || c == '-' || c == '×' || c == '÷'

/-- One attempt of `/P(?:\s+value)?[=\s]*([0-9.e\-×÷]+)/i` at the head of the
input, returning the full match. The optional `\s+value` group is tried
first; if the rest of the pattern then fails, the regex backtracks to the
variant without the group. -/
def tryPVal : List Char → Option (List Char)
  | c :: rest =>
    if c == 'P' || c == 'p' then
      let ws := rest.takeWhile Char.isWhitespace
      let afterWs := rest.dropWhile Char.isWhitespace
      let finish : List Char → List Char → Option (List Char) := fun consumed rem =>
        let eqws := rem.takeWhile (fun d => d == '=' || d.isWhitespace)
        let rem2 := rem.dropWhile (fun d => d == '=' || d.isWhitespace)
        match rem2.takeWhile isPValChar with
        | [] => none
        | n :: ns => some (c :: (consumed ++ eqws ++ n :: ns))
      match ws, dropPrefCI "value" afterWs with
      | _ :: _, some rem =>
        (finish (ws ++ afterWs.take 5) rem).orElse (fun _ => finish [] rest)
      | _, _ => finish [] rest
    else none
  | [] => none

/-- `match.replace(/^\[\[|\]\]$/g, '')`: strips a leading `[[` and a trailing
`]]`, each when present. -/
def stripBrackets (s : String) : String :=
  let l := if s.data.take 2 = ['[', '['] then s.data.drop 2 else s.data
  let l2 := if l.reverse.take 2 = [']', ']'] then l.take (l.length - 2) else l
  l2.asString

/-- Helper for `dedupFirst`: keeps each element not already seen, in order. -/
def dedupFirstAux : List String → List String → List String
  | _, [] => []
  | seen, x :: xs =>
    if x ∈ seen then dedupFirstAux seen xs
    else x :: dedupFirstAux (x :: seen) xs

/-- First-occurrence deduplication, as performed by `[...new Set(xs)]`
(insertion order, first occurrence kept). -/
def dedupFirst (l : List String) : List String :=
  dedupFirstAux [] l

/-- `text.substring(contextStart, contextEnd).trim()` for the ±100-character
context window around `idx`, clamped to the text bounds. -/
def contextWindow (text : String) (idx : Nat) : String :=
  let contextStart := idx - 100
  let contextEnd := min text.data.length (idx + 100)
  jsTrim ((text.data.drop contextStart).take (contextEnd - contextStart)).asString

/-- The per-match body of the `PMID` template extraction: re-matches the
global match with the capturing regex, takes the digits as the id and scans
the trailing part for a title (`|title=...` or any pipe-delimited
fragment). -/
def pmidOfTplMatch (m : String) : Option PmidInfo :=
  match m.data.tails.findSome? tryPmidCaps with
  | some (ds, titlePart) =>
    let title : Option String :=
      if titlePart.isEmpty then none
      else (firstCap tryTitleCap titlePart).map jsTrim
    some { pmid := some ds.asString, title := title }
  | none => none

/-- The free-text annotator `parseContentText`: scans the raw wikitext for
the risk allele phrase, double-bracketed trait links, genotype-specific
cross-references with a ±100-character context window, related `rs` ids,
`PMID` template citations, gender-specificity phrases and P-value mentions. -/
def parseContentText (text : String) : ContentData :=
  let riskAllele := firstCap tryRiskCap text.data
  let traits := dedupFirst ((globalScan tryBracket text.data).map
    (fun m => jsLower (stripBrackets m)))
  let genotypeEffects := (globalScan tryGenoLink text.data).foldl
    (fun acc m =>
      match firstCap tryGenoCap m.data with
      | some g =>
        let idx := (indexOfStr text m).getD 0
        let context := contextWindow text idx
        acc ++ [{ genotype := g, effect := context, context := some context }]
      | none => acc) []
  let relatedSNPs := dedupFirst ((globalScan tryRsLink text.data).map stripBrackets)
  let pmids := ((globalScan tryPmidTpl text.data).map pmidOfTplMatch).reduceOption
  let male := containsSub text "primarily seen only in males" || containsSub text "X chromosome"
  let genderSpecific : Option String :=
    if containsSub text "females" && containsSub text "homozygous" then
      if male then some "both" else some "female"
    else if male then some "male" else none
  let clinicalSignificance :=
    if containsSub text "P value" then
      (globalScan tryPVal text.data).map (fun m => "Statistical significance: " ++ m)
    else []
  { traits := traits
  , genotypeEffects := genotypeEffects
  , relatedSNPs := relatedSNPs
  , pmids := pmids
  , riskAllele := riskAllele
  , genderSpecific := genderSpecific
  , clinicalSignificance := clinicalSignificance }

/-- A table cell of the loaded document. `text` is the cheerio `.text()` of
the cell (untrimmed; trimming happens at each use site, as in the source),
`style` its `style` attribute, `linkText` the concatenated text of its `<a>`
descendants (`""` when there are none) and `linkHref` the `href` of its first
`<a[href]>` descendant. -/
structure HtmlCell where
  isTh : Bool := false
  text : String := ""
  style : Option String := none
  linkText : String := ""
  linkHref : Option String := none
deriving DecidableEq

/-- A table row; `cells` lists its `<td>`/`<th>` children in document
order. -/
structure HtmlRow where
  cells : List HtmlCell := []
deriving DecidableEq

/-- A table with its `style` attribute and rows. -/
structure HtmlTable where
  style : Option String := none
  rows : List HtmlRow := []
deriving DecidableEq

/-- An `<a href=...>` element with its text and the text of its parent
element (used for sibling-text title extraction). -/
structure HtmlAnchor where
  href : String := ""
  text : String := ""
  parentText : String := ""
deriving DecidableEq

/-- One data point of a population-frequency series; `value` is the string
content of its `value` property (`none` when the property is absent). -/
structure SeriesPoint where
  value : Option String := none
deriving DecidableEq

/-- One per-genotype frequency series from the embedded script block; a
`none` element models a `null` entry in the parsed JSON array. -/
structure SeriesEntry where
  data : List (Option SeriesPoint) := []
deriving DecidableEq

/-- Model of the cheerio-loaded document: the query results the extractors
read. `tables` are all `<table>` elements in document order, `anchors` all
`<a>` elements carrying an `href`, `popScript` the outcome of matching
`var labels = [...]` and `var series = [...];` in the concatenated script
text and `JSON.parse`-ing the captured arrays (`none` when either regex
fails to match or parsing throws, i.e. the `catch` branch), and `raw` the
`$.html()` serialization of the page. -/
structure HtmlDoc where
  tables : List HtmlTable := []
  anchors : List HtmlAnchor := []
  popScript : Option (List String × List SeriesEntry) := none
  raw : String := ""
deriving DecidableEq

/-- Clinical significance data (`ClinicalInfo`). -/
structure ClinicalInfo where
  significance : Option String := none
  disease : Option String := none
  omimId : Option String := none
deriving DecidableEq

/-- Population frequency data (`PopulationData`); `frequencies` is the
JavaScript object keyed by population label, each value an object keyed by
`geno<N>`. A `none` frequency models a `NaN` from `parseFloat`. -/
structure PopulationData where
  populations : List String
  frequencies : List (String × List (String × Option ℚ))
deriving DecidableEq

/-- JavaScript object property assignment `o[k] = v`: replaces the value of
an existing key in place, otherwise appends the key. -/
def jsSet {α : Type} : List (String × α) → String → α → List (String × α)
  | [], k, v => [(k, v)]
  | (k', v') :: rest, k, v =>
    if k' = k then (k, v) :: rest else (k', v') :: jsSet rest k v

/-- JavaScript object property read `o[k]`. -/
def jsLookup {α : Type} (o : List (String × α)) (k : String) : Option α :=
  (o.find? (fun p => p.1 = k)).map (fun p => p.2)

/-- The structural extractor's partial record (the `result` object built by
`parseHtmlContent`). `maxMagnitude` and `referenceAllele` are declared on
the interface but never assigned by any sub-extractor. -/
structure HtmlPart where
  rsid : Option String := none
  gene : Option String := none
  chromosome : Option String := none
  position : Option Int := none
  summary : Option String := none
  genotypes : List GenotypeInfo := []
  maxMagnitude : Option ℚ := none
  gmaf : Option ℚ := none
  orientation : Option String := none
  referenceAllele : Option String := none
  externalLinks : List ExternalLink := []
  pmids : List PmidInfo := []
  populationData : Option PopulationData := none
  clinicalInfo : Option ClinicalInfo := none
deriving DecidableEq

/-- The `<td>` children of a row (`$row.find('td')`). -/
def tds (row : HtmlRow) : List HtmlCell :=
  row.cells.filter (fun c => !c.isTh)

/-- The `<th>` descendants of a table (`$table.find('th')`). -/
def ths (t : HtmlTable) : List HtmlCell :=
  t.rows.flatMap (fun r => r.cells.filter (fun c => c.isTh))

/-- `value.replace(/,/g, '')`. -/
def removeCommas (s : String) : String :=
  (s.data.filter (fun c => c ≠ ',')).asString

/-- One attempt of `/rs(\d+)/` at the head of the input, returning capture
group 1 (the digits). -/
def tryRsCap : List Char → Option (List Char)
  | 'r' :: 's' :: rest =>
    match rest.takeWhile Char.isDigit with
    | [] => none
    | d :: ds => some (d :: ds)
  | _ => none

/-- `extractBasicInfoFromHtml`: scans every two-`td` row of every table for
the chromosome/position/gene/gmaf/orientation labels, takes the summary from
the first table styled as the summary box, and seeds `rsid` from the first
`rs<digits>` occurrence in the serialized page. -/
def extractBasicInfoFromHtml (doc : HtmlDoc) (r0 : HtmlPart) : HtmlPart :=
  let r := (doc.tables.flatMap (fun t => t.rows)).foldl
    (fun r row =>
      match tds row with
      | [c0, c1] =>
        let key := jsLower (jsTrim c0.text)
        let value := jsTrim c1.text
        if key = "chromosome" then { r with chromosome := some value }
        else if key = "position" then { r with position := parseIntJS (removeCommas value) }
        else if key = "gene" then
          { r with gene := some (if c1.linkText ≠ "" then c1.linkText else value) }
        else if key = "gmaf" then { r with gmaf := parseFloatJS value }
        else if key = "orientation" then { r with orientation := some value }
        else r
      | _ => r) r0
  let r :=
    match doc.tables.find? (fun t =>
        match t.style with
        | some s => containsSub s "background-color: #FFFFC0"
        | none => false) with
    | some t =>
      { r with
        summary := some (jsTrim (String.join ((t.rows.flatMap tds).map (fun c => c.text)))) }
    | none => r
  match firstCap tryRsCap doc.raw.data with
  | some ds => { r with rsid := some ("rs" ++ ds) }
  | none => r

/-- Risk color from the magnitude cell's background-color marker. -/
def colorOfStyle (style : Option String) : String :=
  match style with
  | some s =>
    if containsSub s "#80ff80" then "green"
    else if containsSub s "#ffffff" then "white"
    else if containsSub s "#ff8080" then "red"
    else "unknown"
  | none => "unknown"

/-- `extractGenotypeInfoFromHtml`: every table whose headers include `geno`,
`mag` and `summary` contributes each row with at least three `td` cells whose
magnitude parses; parentheses are stripped from the genotype and the
magnitude cell's background color maps to a risk color. -/
def extractGenotypeInfoFromHtml (doc : HtmlDoc) (r0 : HtmlPart) : HtmlPart :=
  doc.tables.foldl
    (fun r t =>
      let headers := (ths t).map (fun c => jsLower (jsTrim c.text))
      if "geno" ∈ headers ∧ "mag" ∈ headers ∧ "summary" ∈ headers then
        t.rows.foldl
          (fun r row =>
            match tds row with
            | c0 :: c1 :: c2 :: _ =>
              let genotype := ((jsTrim c0.text).data.filter
                (fun c => c ≠ '(' ∧ c ≠ ')')).asString
              let magnitude := parseFloatJS (jsTrim c1.text)
              let summary := jsTrim c2.text
              let color := colorOfStyle c1.style
              match magnitude with
              | some m =>
                if genotype ≠ "" then
                  { r with genotypes := r.genotypes ++
                      [{ genotype := genotype, magnitude := m, summary := summary
                       , color := color }] }
                else r
              | none => r
            | _ => r) r
      else r) r0

/-- `extractExternalLinksFromHtml`: every two-`td` row whose second cell
contains a hyperlink starting with `http` contributes a named link. -/
def extractExternalLinksFromHtml (doc : HtmlDoc) (r0 : HtmlPart) : HtmlPart :=
  (doc.tables.flatMap (fun t => t.rows)).foldl
    (fun r row =>
      match tds row with
      | [c0, c1] =>
        match c1.linkHref with
        | some l =>
          if startsWithJS l "http" then
            { r with externalLinks := r.externalLinks ++ [{ name := jsTrim c0.text, url := l }] }
          else r
        | none => r
      | _ => r) r0

/-- One attempt of `/(?:pubmed\/|pmid[=:]?)(\d+)/i` at the head of the input,
returning capture group 1. -/
def tryPmidHrefCap (cs : List Char) : Option (List Char) :=
  match dropPrefCI "pubmed/" cs with
  | some rest =>
    match rest.takeWhile Char.isDigit with
    | [] => none
    | d :: ds => some (d :: ds)
  | none =>
    match dropPrefCI "pmid" cs with
    | some rest =>
      let rest2 := match rest with
        | c :: tl => if c = '=' ∨ c = ':' then tl else rest
        | [] => rest
      match rest2.takeWhile Char.isDigit with
      | [] => none
      | d :: ds => some (d :: ds)
    | none => none

/-- Replaces the title of the first entry carrying `pmid` (the in-place
mutation `existingPmid.title = title`). -/
def backfillTitle : List PmidInfo → String → Option String → List PmidInfo
  | [], _, _ => []
  | p :: ps, pm, t =>
    if p.pmid = some pm then { p with title := t } :: ps
    else p :: backfillTitle ps pm t

/-- `extractPmidsFromHtml`: every anchor whose href mentions PubMed
contributes a citation id; the title comes from the link text when it is not
purely numeric, else from the parent's remaining text when longer than 10
characters. A repeated id keeps the first entry, backfilling only a missing
title. -/
def extractPmidsFromHtml (doc : HtmlDoc) (r0 : HtmlPart) : HtmlPart :=
  (doc.anchors.filter (fun a => containsSub a.href "pubmed")).foldl
    (fun r a =>
      match firstCap tryPmidHrefCap a.href.data with
      | some pmid =>
        let text := jsTrim a.text
        let title : Option String :=
          if text ≠ "" ∧ text ≠ pmid ∧ ¬ (text.data ≠ [] ∧ text.data.all Char.isDigit) then
            some text
          else
            let siblingText := jsTrim (removeFirstOcc a.parentText text)
            if siblingText ≠ "" ∧ siblingText.data.length > 10 then some siblingText
            else none
        match r.pmids.find? (fun p => p.pmid == some pmid) with
        | none => { r with pmids := r.pmids ++ [{ pmid := some pmid, title := title }] }
        | some existing =>
          if truthyS title ∧ ¬ truthyS existing.title then
            { r with pmids := backfillTitle r.pmids pmid title }
          else r
      | none => r) r0

/-- The frequency string for series `gs` at population index `idx`:
`genotypeSeries.data[idx]?.value || '0'`. -/
def freqStrAt (gs : SeriesEntry) (idx : Nat) : String :=
  match gs.data.get? idx with
  | some (some pt) =>
    match pt.value with
    | some v => if v ≠ "" then v else "0"
    | none => "0"
  | _ => "0"

/-- Decimal digit characters of a natural number, fuel-based (the fuel is
always called with at least `n + 1`, which suffices since the value shrinks
by a factor of ten each step). -/
def natDecChars : Nat → Nat → List Char
  | 0, _ => []
  | fuel + 1, n =>
    if n < 10 then [Nat.digitChar n]
    else natDecChars fuel (n / 10) ++ [Nat.digitChar (n % 10)]

/-- Decimal rendering of a natural number, as produced by a JavaScript
template literal interpolating a number. -/
def natDecStr (n : Nat) : String :=
  (natDecChars (n + 1) n).asString

/-- The synthetic per-series key `` `geno${genoIdx + 1}` ``. -/
def genoKey (n : Nat) : String :=
  "geno" ++ natDecStr n

/-- The inner `series.forEach` loop: builds the per-population object mapping
`geno<N>` to the parsed frequency of series `N-1` at `idx`. -/
def genoFold : List SeriesEntry → Nat → Nat → List (String × Option ℚ) → List (String × Option ℚ)
  | [], _, _, inner => inner
  | gs :: rest, genoIdx, idx, inner =>
    genoFold rest (genoIdx + 1) idx
      (jsSet inner (genoKey (genoIdx + 1)) (parseFloatJS (freqStrAt gs idx)))

/-- The outer `labels.forEach` loop: assigns each population its frequency
object. -/
def popFold (series : List SeriesEntry) :
    List String → Nat → List (String × List (String × Option ℚ)) →
    List (String × List (String × Option ℚ))
  | [], _, freqs => freqs
  | pop :: rest, idx, freqs =>
    popFold series rest (idx + 1) (jsSet freqs pop (genoFold series 0 idx []))

/-- `extractPopulationDataFromHtml`: when the labels and series arrays parsed
from the script block, builds the population→(geno key→frequency) mapping;
otherwise leaves the record untouched. -/
def extractPopulationDataFromHtml (doc : HtmlDoc) (r0 : HtmlPart) : HtmlPart :=
  match doc.popScript with
  | some (labels, series) =>
    { r0 with
      populationData :=
        some ({ populations := labels, frequencies := popFold series labels 0 [] }) }
  | none => r0

/-- One attempt of `/omim\/(\d+)/` at the head of the input, returning
capture group 1. -/
def tryOmimCap : List Char → Option (List Char)
  | 'o' :: 'm' :: 'i' :: 'm' :: '/' :: rest =>
    match rest.takeWhile Char.isDigit with
    | [] => none
    | d :: ds => some (d :: ds)
  | _ => none

/-- `extractClinicalInfoFromHtml`: scans tables carrying a `ClinVar` header
for significance/disease rows (over both `td` and `th` cells) and takes an
OMIM id from the first anchor referencing OMIM; the clinical record is only
attached when at least one field was assigned. -/
def extractClinicalInfoFromHtml (doc : HtmlDoc) (r0 : HtmlPart) : HtmlPart :=
  let ci := doc.tables.foldl
    (fun (ci : ClinicalInfo) t =>
      if (ths t).any (fun c => containsSub c.text "ClinVar") then
        t.rows.foldl
          (fun ci row =>
            match row.cells with
            | [c0, c1] =>
              let key := jsLower (jsTrim c0.text)
              let value := jsTrim c1.text
              if key = "significance" then { ci with significance := some value }
              else if key = "disease" then { ci with disease := some value }
              else ci
            | _ => ci) ci
      else ci) {}
  let ci :=
    match doc.anchors.find? (fun a => containsSub a.href "omim") with
    | some a =>
      if a.href ≠ "" then
        match firstCap tryOmimCap a.href.data with
        | some ds => { ci with omimId := some ds }
        | none => ci
      else ci
    | none => ci
  if ci.significance.isSome ∨ ci.disease.isSome ∨ ci.omimId.isSome then
    { r0 with clinicalInfo := some ci }
  else r0

/-- `parseHtmlContent`: runs the six structural sub-extractions in source
order over the loaded document. -/
def parseHtmlContent (doc : HtmlDoc) : HtmlPart :=
  extractClinicalInfoFromHtml doc
    (extractPopulationDataFromHtml doc
      (extractPmidsFromHtml doc
        (extractExternalLinksFromHtml doc
          (extractGenotypeInfoFromHtml doc
            (extractBasicInfoFromHtml doc {})))))

/-- A key/value mapping returned by `parse-mediawiki-template` for one
template invocation. -/
abbrev TemplateObj : Type := List (String × String)

/-- A value produced by the template library: the merge code defensively
handles both plain strings and key/value objects (`typeof p === 'string'`). -/
inductive MwVal where
  | str (s : String)
  | obj (o : TemplateObj)
deriving DecidableEq

/-- JavaScript truthiness of an `MwVal` (an object is always truthy, a string
is truthy when non-empty). -/
def mwTruthy : MwVal → Bool
  | .str s => s ≠ ""
  | .obj _ => true

/-- `x || {}` on a possibly-absent template value. -/
def mwOrEmpty : Option MwVal → MwVal
  | some v => if mwTruthy v then v else .obj []
  | none => .obj []

/-- JavaScript property read `v.k`: defined for objects, `undefined` for
strings. -/
def jsGetV (v : MwVal) (k : String) : Option String :=
  match v with
  | .str _ => none
  | .obj o => jsLookup o k

/-- Result of `parseWikiTemplates`: the first (or all) invocation(s) of each
recognized template name. -/
structure WikiData where
  rsnum : Option MwVal := none
  pmidAuto : List MwVal := []
  pmid : List MwVal := []
  populationDiversity : Option MwVal := none
  clinvar : Option MwVal := none
  onchip : List MwVal := []
  omim : Option MwVal := none

/-- `parseWikiTemplates`: queries the template library (modelled by `mw`,
mapping a template name to its list of parsed invocations) for the seven
recognized template names, taking the first invocation where the source
does `x[0]`. -/
def parseWikiTemplates (mw : String → List MwVal) : WikiData :=
  { rsnum := (mw "rsnum").head?
  , pmidAuto := mw "PMID Auto"
  , pmid := mw "PMID"
  , populationDiversity := (mw "population diversity").head?
  , clinvar := (mw "ClinVar").head?
  , onchip := mw "on chip"
  , omim := (mw "omim").head? }

/-- Provenance flags (`sourceData`). -/
structure SourceData where
  hasHtmlData : Bool := false
  hasTemplateData : Bool := false
  genotypeCount : Nat := 0
  externalLinkCount : Nat := 0
deriving DecidableEq

/-- Raw-input passthrough (`rawContent`). -/
structure RawContent where
  html : Option String := none
  wikitext : Option String := none
deriving DecidableEq

/-- The normalized output record (`ComprehensiveSnpData`). -/
structure ComprehensiveSnpData where
  rsid : Option String := none
  gene : Option String := none
  chromosome : Option String := none
  position : Option Int := none
  summary : Option String := none
  genotypes : List GenotypeInfo := []
  maxMagnitude : Option ℚ := none
  riskAllele : Option String := none
  clinicalInfo : Option ClinicalInfo := none
  clinvarData : MwVal := .obj []
  omimData : MwVal := .obj []
  populationData : Option PopulationData := none
  gmaf : Option ℚ := none
  externalLinks : List ExternalLink := []
  pmids : List PmidInfo := []
  orientation : Option String := none
  referenceAllele : Option String := none
  assembly : Option String := none
  dbSNPBuild : Option String := none
  traits : List String := []
  genotypeEffects : List GenotypeEffect := []
  relatedSNPs : List String := []
  genderSpecific : Option String := none
  sourceData : SourceData := {}
  rawContent : Option RawContent := none
deriving DecidableEq

/-- Helper for `dedupByPmid`: keeps each entry whose `pmid` was not already
seen, in order. -/
def dedupByPmidAux : List (Option String) → List PmidInfo → List PmidInfo
  | _, [] => []
  | seen, p :: ps =>
    if p.pmid ∈ seen then dedupByPmidAux seen ps
    else p :: dedupByPmidAux (p.pmid :: seen) ps

/-- The merged citation list's deduplication:
`filter((v, i, a) => a.findIndex(item => item.pmid === v.pmid) === i)` keeps
each element iff its index is the first index carrying its `pmid`, i.e. the
first occurrence of every id, kept verbatim. -/
def dedupByPmid (l : List PmidInfo) : List PmidInfo :=
  dedupByPmidAux [] l

/-- Mapping of a `PMID Auto` template invocation into a citation entry. -/
def autoEntry (p : MwVal) : PmidInfo :=
  { pmid := jsGetV p "PMID", title := jsGetV p "title" }

/-- Mapping of a `PMID` template invocation into a citation entry
(`typeof p === 'string' ? p : p.PMID`). -/
def pmidEntry (p : MwVal) : PmidInfo :=
  match p with
  | .str s => { pmid := some s, title := none }
  | .obj o => { pmid := jsLookup o "PMID", title := jsLookup o "title" }

/-- `mergeSnpData`: combines the three partial results. Template (`rsnum`)
fields win by JavaScript `||` (so a present-but-empty template value falls
back to the structural one); `rsid` is built as `'rs' + rsnumData.rsid`
before the `||`, so the structural fallback is unreachable; citations are
concatenated from all sources and deduplicated by id. -/
def mergeSnpData (htmlData : HtmlPart) (wikiData : WikiData) (contentData : ContentData) :
    ComprehensiveSnpData :=
  let rsnumData := mwOrEmpty wikiData.rsnum
  let clinvarData := mwOrEmpty wikiData.clinvar
  let omimData := mwOrEmpty wikiData.omim
  { rsid := jsOrS (some ("rs" ++ jsToStr (jsGetV rsnumData "rsid"))) htmlData.rsid
  , gene := jsOrS (jsGetV rsnumData "Gene") htmlData.gene
  , chromosome := jsOrS (jsGetV rsnumData "Chromosome") htmlData.chromosome
  , position :=
      if truthyS (jsGetV rsnumData "position") then
        parseIntJS ((jsGetV rsnumData "position").getD "")
      else htmlData.position
  , summary := jsOrS (jsGetV rsnumData "Summary") htmlData.summary
  , genotypes := htmlData.genotypes
  , maxMagnitude := htmlData.maxMagnitude
  , riskAllele := contentData.riskAllele
  , clinicalInfo := htmlData.clinicalInfo
  , clinvarData := clinvarData
  , omimData := omimData
  , populationData := htmlData.populationData
  , gmaf :=
      if truthyS (jsGetV rsnumData "GMAF") then
        parseFloatJS ((jsGetV rsnumData "GMAF").getD "")
      else htmlData.gmaf
  , externalLinks := htmlData.externalLinks
  , pmids := dedupByPmid (htmlData.pmids ++ contentData.pmids ++
      wikiData.pmidAuto.map autoEntry ++ wikiData.pmid.map pmidEntry)
  , orientation := jsOrS (jsGetV rsnumData "Orientation") htmlData.orientation
  , referenceAllele := jsOrS (jsGetV rsnumData "ReferenceAllele") htmlData.referenceAllele
  , assembly := jsGetV rsnumData "Assembly"
  , dbSNPBuild := jsGetV rsnumData "dbSNPBuild"
  , traits := contentData.traits
  , genotypeEffects := contentData.genotypeEffects
  , relatedSNPs := contentData.relatedSNPs
  , genderSpecific := contentData.genderSpecific
  , sourceData :=
      { hasHtmlData := truthyS htmlData.rsid
      , hasTemplateData := truthyS (jsGetV rsnumData "rsid")
      , genotypeCount := htmlData.genotypes.length
      , externalLinkCount := htmlData.externalLinks.length } }

/-- The service input: the loaded document model of the rendered html
(`text`), the raw wikitext, and the template library's results over that
wikitext. -/
structure SnpediaInput where
  doc : HtmlDoc
  wikitext : String
  mw : String → List MwVal

/-- The orchestration entry point `parseSnpediaContent`: runs the three
extractors, merges them, and attaches the raw inputs. -/
def parseSnpediaContent (input : SnpediaInput) : ComprehensiveSnpData :=
  let htmlData := parseHtmlContent input.doc
  let wikiData := parseWikiTemplates input.mw
  let contentData := parseContentText input.wikitext
  let mergedData := mergeSnpData htmlData wikiData contentData
  { mergedData with
    rawContent := some { html := some input.doc.raw, wikitext := some input.wikitext } }

/-- Risk tier of a genotype (`'HIGH' | 'MEDIUM' | 'LOW'`). -/
inductive RiskLevel where
  | HIGH
  | MEDIUM
  | LOW
deriving DecidableEq

/-- One entry of the risk classifier's output. -/
structure RiskAssessment where
  genotype : String
  riskLevel : RiskLevel
  magnitude : ℚ
  summary : String
deriving DecidableEq

/-- `analyzeRiskLevels`: per-genotype risk tier from the magnitude
thresholds (`>= 3` high, `>= 2` medium, otherwise low). -/
def analyzeRiskLevels (data : ComprehensiveSnpData) : List RiskAssessment :=
  data.genotypes.map (fun geno =>
    { genotype := geno.genotype
    , riskLevel :=
        if geno.magnitude ≥ (3 : ℚ) then RiskLevel.HIGH
        else if geno.magnitude ≥ (2 : ℚ) then RiskLevel.MEDIUM
        else RiskLevel.LOW
    , magnitude := geno.magnitude
    , summary := geno.summary })

/-! ### Helper lemmas -/

theorem truthyS_iff (o : Option String) : truthyS o = true ↔ ∃ v, o = some v ∧ v ≠ "" := by
  cases o with
  | none => simp [truthyS]
  | some s => simp [truthyS]

theorem jsOrS_some_ne {a : String} (h : a ≠ "") (b : Option String) :
    jsOrS (some a) b = some a := by
  simp [jsOrS, truthyS, h]

theorem jsOrS_some_empty (b : Option String) : jsOrS (some "") b = b := by
  simp [jsOrS, truthyS]

theorem jsOrS_none (b : Option String) : jsOrS none b = b := rfl

theorem mem_dedupFirstAux (a : String) :
    ∀ (l seen : List String), a ∈ dedupFirstAux seen l ↔ a ∈ l ∧ a ∉ seen := by
  intro l
  induction l with
  | nil => intro seen; simp [dedupFirstAux]
  | cons x xs ih =>
    intro seen
    by_cases hx : x ∈ seen
    · simp only [dedupFirstAux, if_pos hx, ih]
      constructor
      · rintro ⟨h1, h2⟩; exact ⟨List.mem_cons_of_mem _ h1, h2⟩
      · rintro ⟨h1, h2⟩
        rcases List.mem_cons.mp h1 with rfl | h1
        · exact absurd hx h2
        · exact ⟨h1, h2⟩
    · simp only [dedupFirstAux, if_neg hx, List.mem_cons, ih]
      constructor
      · rintro (rfl | ⟨h1, h2⟩)
        · exact ⟨Or.inl rfl, hx⟩
        · refine ⟨Or.inr h1, fun hs => h2 (Or.inr hs)⟩
      · rintro ⟨rfl | h1, h2⟩
        · exact Or.inl rfl
        · by_cases hax : a = x
          · exact Or.inl hax
          · exact Or.inr ⟨h1, by simp [List.mem_cons, hax, h2]⟩

theorem nodup_dedupFirstAux : ∀ (l seen : List String), (dedupFirstAux seen l).Nodup := by
  intro l
  induction l with
  | nil => intro seen; simp [dedupFirstAux]
  | cons x xs ih =>
    intro seen
    by_cases hx : x ∈ seen
    · simpa [dedupFirstAux, if_pos hx] using ih seen
    · simp only [dedupFirstAux, if_neg hx, List.nodup_cons]
      refine ⟨fun hmem => ?_, ih (x :: seen)⟩
      exact ((mem_dedupFirstAux x xs (x :: seen)).mp hmem).2 (List.mem_cons_self x seen)

theorem mem_dedupFirst (a : String) (l : List String) : a ∈ dedupFirst l ↔ a ∈ l := by
  simp [dedupFirst, mem_dedupFirstAux]

theorem nodup_dedupFirst (l : List String) : (dedupFirst l).Nodup :=
  nodup_dedupFirstAux l []

theorem mem_of_mem_dedupByPmidAux (q : PmidInfo) :
    ∀ (l : List PmidInfo) (seen : List (Option String)),
      q ∈ dedupByPmidAux seen l → q ∈ l := by
  intro l
  induction l with
  | nil => intro seen h; simp [dedupByPmidAux] at h
  | cons p ps ih =>
    intro seen h
    by_cases hp : p.pmid ∈ seen
    · simp only [dedupByPmidAux, if_pos hp] at h
      exact List.mem_cons_of_mem _ (ih seen h)
    · simp only [dedupByPmidAux, if_neg hp, List.mem_cons] at h
      rcases h with rfl | h
      · exact List.mem_cons_self _ _
      · exact List.mem_cons_of_mem _ (ih _ h)

theorem key_covered_dedupByPmidAux (q : PmidInfo) :
    ∀ (l : List PmidInfo) (seen : List (Option String)), q ∈ l →
      q.pmid ∈ seen ∨ ∃ q', q' ∈ dedupByPmidAux seen l ∧ q'.pmid = q.pmid := by
  intro l
  induction l with
  | nil => intro seen h; simp at h
  | cons p ps ih =>
    intro seen h
    by_cases hp : p.pmid ∈ seen
    · simp only [dedupByPmidAux, if_pos hp]
      rcases List.mem_cons.mp h with rfl | h
      · exact Or.inl hp
      · exact ih seen h
    · simp only [dedupByPmidAux, if_neg hp]
      rcases List.mem_cons.mp h with rfl | h
      · exact Or.inr ⟨q, List.mem_cons_self _ _, rfl⟩
      · rcases ih (p.pmid :: seen) h with hseen | ⟨q', hq', hkey⟩
        · rcases List.mem_cons.mp hseen with heq | hseen
          · exact Or.inr ⟨p, List.mem_cons_self _ _, heq.symm⟩
          · exact Or.inl hseen
        · exact Or.inr ⟨q', List.mem_cons_of_mem _ hq', hkey⟩

theorem key_not_seen_dedupByPmidAux (q : PmidInfo) :
    ∀ (l : List PmidInfo) (seen : List (Option String)),
      q ∈ dedupByPmidAux seen l → q.pmid ∉ seen := by
  intro l
  induction l with
  | nil => intro seen h; simp [dedupByPmidAux] at h
  | cons p ps ih =>
    intro seen h
    by_cases hp : p.pmid ∈ seen
    · simp only [dedupByPmidAux, if_pos hp] at h
      exact ih seen h
    · simp only [dedupByPmidAux, if_neg hp, List.mem_cons] at h
      rcases h with rfl | h
      · exact hp
      · intro hmem
        exact ih _ h (List.mem_cons_of_mem _ hmem)

theorem keys_nodup_dedupByPmidAux :
    ∀ (l : List PmidInfo) (seen : List (Option String)),
      ((dedupByPmidAux seen l).map (fun p => p.pmid)).Nodup := by
  intro l
  induction l with
  | nil => intro seen; simp [dedupByPmidAux]
  | cons p ps ih =>
    intro seen
    by_cases hp : p.pmid ∈ seen
    · simpa [dedupByPmidAux, if_pos hp] using ih seen
    · simp only [dedupByPmidAux, if_neg hp, List.map_cons, List.nodup_cons]
      refine ⟨fun hmem => ?_, ih (p.pmid :: seen)⟩
      rcases List.mem_map.mp hmem with ⟨q, hq, hkey⟩
      exact key_not_seen_dedupByPmidAux q ps (p.pmid :: seen) hq
        (hkey ▸ List.mem_cons_self _ _)

theorem foldl_invariant {α β : Type} (f : β → α → β) (P : β → Prop)
    (hstep : ∀ b a, P b → P (f b a)) :
    ∀ (l : List α) (b : β), P b → P (l.foldl f b) := by
  intro l
  induction l with
  | nil => intro b hb; exact hb
  | cons x xs ih => intro b hb; exact ih (f b x) (hstep b x hb)

theorem jsLookup_jsSet_self {α : Type} (o : List (String × α)) (k : String) (v : α) :
    jsLookup (jsSet o k v) k = some v := by
  induction o with
  | nil => simp [jsSet, jsLookup]
  | cons p rest ih =>
    by_cases h : p.1 = k
    · cases p; simp_all [jsSet, jsLookup]
    · cases p; simp_all [jsSet, jsLookup, List.find?]

theorem jsLookup_jsSet_ne {α : Type} (o : List (String × α)) {k k' : String} (v : α)
    (h : k' ≠ k) : jsLookup (jsSet o k v) k' = jsLookup o k' := by
  induction o with
  | nil => simp [jsSet, jsLookup, List.find?, Ne.symm h]
  | cons p rest ih =>
    by_cases hp : p.1 = k
    · cases p with
      | mk k0 v0 =>
        subst hp
        simp [jsSet, jsLookup, List.find?, h, Ne.symm h]
    · cases p with
      | mk k0 v0 =>
        by_cases hk0 : k0 = k'
        · simp_all [jsSet, jsLookup, List.find?]
        · simp_all [jsSet, jsLookup, List.find?]

theorem natOfDigits_append_digit (l : List Char) (c : Char) :
    natOfDigits (l ++ [c]) = 10 * natOfDigits l + (c.toNat - 48) := by
  simp [natOfDigits, List.foldl_append]

theorem digitChar_toNat {n : Nat} (h : n < 10) : (Nat.digitChar n).toNat - 48 = n := by
  interval_cases n <;> rfl

theorem natOfDigits_natDecChars :
    ∀ (fuel n : Nat), n < fuel → natOfDigits (natDecChars fuel n) = n := by
  intro fuel
  induction fuel with
  | zero => intro n h; omega
  | succ fuel ih =>
    intro n h
    by_cases h10 : n < 10
    · simp only [natDecChars, if_pos h10]
      have : natOfDigits [Nat.digitChar n] = (Nat.digitChar n).toNat - 48 := by
        simp [natOfDigits]
      rw [this, digitChar_toNat h10]
    · rw [natDecChars, if_neg h10, natOfDigits_append_digit]
      have hlt : n / 10 < n := Nat.div_lt_self (by omega) (by omega)
      rw [ih (n / 10) (by omega), digitChar_toNat (Nat.mod_lt n (by omega))]
      omega

theorem natDecStr_inj {a b : Nat} (h : natDecStr a = natDecStr b) : a = b := by
  have hd : natDecChars (a + 1) a = natDecChars (b + 1) b := congrArg String.data h
  have ha := natOfDigits_natDecChars (a + 1) a (by omega)
  have hb := natOfDigits_natDecChars (b + 1) b (by omega)
  rw [← ha, ← hb, hd]

theorem genoKey_inj {a b : Nat} (h : genoKey a = genoKey b) : a = b := by
  have hd := congrArg String.data h
  simp only [genoKey, String.data_append] at hd
  have hdd : natDecChars (a + 1) a = natDecChars (b + 1) b :=
    List.append_cancel_left hd
  have ha := natOfDigits_natDecChars (a + 1) a (by omega)
  have hb := natOfDigits_natDecChars (b + 1) b (by omega)
  rw [← ha, ← hb, hdd]

/-! ### Extractor field-preservation lemmas -/

theorem extractBasicInfo_keeps (doc : HtmlDoc) (r0 : HtmlPart) :
    (extractBasicInfoFromHtml doc r0).maxMagnitude = r0.maxMagnitude := by
  unfold extractBasicInfoFromHtml
  have hfold := foldl_invariant
    (fun r row =>
      match tds row with
      | [c0, c1] =>
        let key := jsLower (jsTrim c0.text)
        let value := jsTrim c1.text
        if key = "chromosome" then { r with chromosome := some value }
        else if key = "position" then { r with position := parseIntJS (removeCommas value) }
        else if key = "gene" then
          { r with gene := some (if c1.linkText ≠ "" then c1.linkText else value) }
        else if key = "gmaf" then { r with gmaf := parseFloatJS value }
        else if key = "orientation" then { r with orientation := some value }
        else r
      | _ => r)
    (fun b => b.maxMagnitude = r0.maxMagnitude)
    (by
      intro b a hb
      try dsimp only
      split
      · split_ifs <;> simpa using hb
      · exact hb)
    (doc.tables.flatMap (fun t => t.rows)) r0 rfl
  dsimp only
  split <;> split <;> simp_all

theorem extractBasicInfo_rsid (doc : HtmlDoc) (r0 : HtmlPart) :
    (extractBasicInfoFromHtml doc r0).rsid =
      (match firstCap tryRsCap doc.raw.data with
       | some ds => some ("rs" ++ ds)
       | none => r0.rsid) := by
  unfold extractBasicInfoFromHtml
  have hfold := foldl_invariant
    (fun r row =>
      match tds row with
      | [c0, c1] =>
        let key := jsLower (jsTrim c0.text)
        let value := jsTrim c1.text
        if key = "chromosome" then { r with chromosome := some value }
        else if key = "position" then { r with position := parseIntJS (removeCommas value) }
        else if key = "gene" then
          { r with gene := some (if c1.linkText ≠ "" then c1.linkText else value) }
        else if key = "gmaf" then { r with gmaf := parseFloatJS value }
        else if key = "orientation" then { r with orientation := some value }
        else r
      | _ => r)
    (fun b => b.rsid = r0.rsid)
    (by
      intro b a hb
      try dsimp only
      split
      · split_ifs <;> simpa using hb
      · exact hb)
    (doc.tables.flatMap (fun t => t.rows)) r0 rfl
  dsimp only
  split <;> split <;> simp_all

theorem extractGenotypeInfo_keeps (doc : HtmlDoc) (r0 : HtmlPart) :
    (extractGenotypeInfoFromHtml doc r0).maxMagnitude = r0.maxMagnitude ∧
    (extractGenotypeInfoFromHtml doc r0).rsid = r0.rsid := by
  unfold extractGenotypeInfoFromHtml
  refine foldl_invariant _
    (fun b => b.maxMagnitude = r0.maxMagnitude ∧ b.rsid = r0.rsid)
    ?_ doc.tables r0 ⟨rfl, rfl⟩
  intro b t hb
  dsimp only
  split
  · refine foldl_invariant _
      (fun b => b.maxMagnitude = r0.maxMagnitude ∧ b.rsid = r0.rsid)
      ?_ t.rows b hb
    intro b row hb
    dsimp only
    split
    · split
      · split_ifs <;> simpa using hb
      · exact hb
    · exact hb
  · exact hb

theorem extractExternalLinks_keeps (doc : HtmlDoc) (r0 : HtmlPart) :
    (extractExternalLinksFromHtml doc r0).maxMagnitude = r0.maxMagnitude ∧
    (extractExternalLinksFromHtml doc r0).rsid = r0.rsid := by
  unfold extractExternalLinksFromHtml
  refine foldl_invariant _
    (fun b => b.maxMagnitude = r0.maxMagnitude ∧ b.rsid = r0.rsid)
    ?_ (doc.tables.flatMap (fun t => t.rows)) r0 ⟨rfl, rfl⟩
  intro b row hb
  dsimp only
  split
  · split
    · split_ifs <;> simpa using hb
    · exact hb
  · exact hb

theorem extractPmids_keeps (doc : HtmlDoc) (r0 : HtmlPart) :
    (extractPmidsFromHtml doc r0).maxMagnitude = r0.maxMagnitude ∧
    (extractPmidsFromHtml doc r0).rsid = r0.rsid := by
  unfold extractPmidsFromHtml
  refine foldl_invariant _
    (fun b => b.maxMagnitude = r0.maxMagnitude ∧ b.rsid = r0.rsid)
    ?_ (doc.anchors.filter (fun a => containsSub a.href "pubmed")) r0 ⟨rfl, rfl⟩
  intro b a hb
  dsimp only
  split
  · split
    · simpa using hb
    · split_ifs <;> simpa using hb
  · exact hb

theorem extractPopulationData_keeps (doc : HtmlDoc) (r0 : HtmlPart) :
    (extractPopulationDataFromHtml doc r0).maxMagnitude = r0.maxMagnitude ∧
    (extractPopulationDataFromHtml doc r0).rsid = r0.rsid := by
  unfold extractPopulationDataFromHtml
  split <;> simp

theorem extractClinicalInfo_keeps (doc : HtmlDoc) (r0 : HtmlPart) :
    (extractClinicalInfoFromHtml doc r0).maxMagnitude = r0.maxMagnitude ∧
    (extractClinicalInfoFromHtml doc r0).rsid = r0.rsid := by
  unfold extractClinicalInfoFromHtml
  dsimp only
  split_ifs <;> simp

theorem parseHtmlContent_maxMag (doc : HtmlDoc) :
    (parseHtmlContent doc).maxMagnitude = none := by
  unfold parseHtmlContent
  rw [(extractClinicalInfo_keeps doc _).1, (extractPopulationData_keeps doc _).1,
    (extractPmids_keeps doc _).1, (extractExternalLinks_keeps doc _).1,
    (extractGenotypeInfo_keeps doc _).1, extractBasicInfo_keeps doc _]

theorem parseHtmlContent_rsid (doc : HtmlDoc) :
    (parseHtmlContent doc).rsid =
      (match firstCap tryRsCap doc.raw.data with
       | some ds => some ("rs" ++ ds)
       | none => none) := by
  unfold parseHtmlContent
  rw [(extractClinicalInfo_keeps doc _).2, (extractPopulationData_keeps doc _).2,
    (extractPmids_keeps doc _).2, (extractExternalLinks_keeps doc _).2,
    (extractGenotypeInfo_keeps doc _).2, extractBasicInfo_rsid doc _]

/-! ### Concrete fixtures for counterexamples and witnesses -/

/-- A genotype table with one header row (`Geno`/`Mag`/`Summary`) and one
data row. -/
def exGenoTable : HtmlTable :=
  { rows :=
    [ { cells :=
        [ { isTh := true, text := "Geno" }
        , { isTh := true, text := "Mag" }
        , { isTh := true, text := "Summary" } ] }
    , { cells := [ { text := "(A;A)" }, { text := "2" }, { text := "common" } ] } ] }

/-- An input whose page carries only the genotype table above and no
variant-id text. -/
def exGenoInput : SnpediaInput :=
  { doc := { tables := [exGenoTable], raw := "no id on this page" }
  , wikitext := ""
  , mw := fun _ => [] }

/-- Structural partial carrying only a structurally-found `rsid`. -/
def c4Html : HtmlPart := { rsid := some "rs123" }

/-- Template data whose `rsnum` invocation carries an empty `Gene` value. -/
def c1Wiki : WikiData := { rsnum := some (MwVal.obj [("Gene", "")]) }

/-- Template data whose `rsnum` invocation was found but carries no `rsid`
field. -/
def c6Wiki : WikiData := { rsnum := some (MwVal.obj [("Gene", "MTHFR")]) }

/-- Structural citations: id `1` with no title. -/
def c3Html : HtmlPart := { pmids := [{ pmid := some "1", title := none }] }

/-- Free-text citations: a later duplicate of id `1` carrying title `T`, and
id `2`. -/
def c3Content : ContentData :=
  { pmids := [ { pmid := some "1", title := some "T" }
             , { pmid := some "2", title := none } ] }

/-- The trivial (empty) service input. -/
def c9Input : SnpediaInput := { doc := {}, wikitext := "", mw := fun _ => [] }

/-- The concatenated citation list fed to the merge's deduplication:
structural, then free-text, then the two template sources. -/
def mergedCitationInput (h : HtmlPart) (w : WikiData) (c : ContentData) : List PmidInfo :=
  h.pmids ++ c.pmids ++ w.pmidAuto.map autoEntry ++ w.pmid.map pmidEntry

/-! ### Claim theorems -/

/-- C1 (counterexample): a template `Gene` field that is present but empty
loses to the structural value — the merged `gene` is the structural
`"BRCA1"`, not the template's `""`, refuting "for every field present in
both, the template value wins outright". -/
theorem c1_counterexample :
    jsGetV (mwOrEmpty c1Wiki.rsnum) "Gene" = some "" ∧
    (mergeSnpData { gene := some "BRCA1" } c1Wiki {}).gene = some "BRCA1" := by
  decide

/-- C1 (amended): for each of the seven fields (gene, chromosome, position,
summary, gmaf, orientation, referenceAllele), a present and **non-empty**
template value wins outright (numeric fields through their parse); a
present-but-empty or absent template value falls back to the structural
value. -/
theorem c1_template_priority_amended (h : HtmlPart) (w : WikiData) (c : ContentData) :
    (∀ v, v ≠ "" → jsGetV (mwOrEmpty w.rsnum) "Gene" = some v →
      (mergeSnpData h w c).gene = some v) ∧
    ((jsGetV (mwOrEmpty w.rsnum) "Gene" = some "" ∨ jsGetV (mwOrEmpty w.rsnum) "Gene" = none) →
      (mergeSnpData h w c).gene = h.gene) ∧
    (∀ v, v ≠ "" → jsGetV (mwOrEmpty w.rsnum) "Chromosome" = some v →
      (mergeSnpData h w c).chromosome = some v) ∧
    ((jsGetV (mwOrEmpty w.rsnum) "Chromosome" = some "" ∨
        jsGetV (mwOrEmpty w.rsnum) "Chromosome" = none) →
      (mergeSnpData h w c).chromosome = h.chromosome) ∧
    (∀ v, v ≠ "" → jsGetV (mwOrEmpty w.rsnum) "Summary" = some v →
      (mergeSnpData h w c).summary = some v) ∧
    ((jsGetV (mwOrEmpty w.rsnum) "Summary" = some "" ∨
        jsGetV (mwOrEmpty w.rsnum) "Summary" = none) →
      (mergeSnpData h w c).summary = h.summary) ∧
    (∀ v, v ≠ "" → jsGetV (mwOrEmpty w.rsnum) "Orientation" = some v →
      (mergeSnpData h w c).orientation = some v) ∧
    ((jsGetV (mwOrEmpty w.rsnum) "Orientation" = some "" ∨
        jsGetV (mwOrEmpty w.rsnum) "Orientation" = none) →
      (mergeSnpData h w c).orientation = h.orientation) ∧
    (∀ v, v ≠ "" → jsGetV (mwOrEmpty w.rsnum) "ReferenceAllele" = some v →
      (mergeSnpData h w c).referenceAllele = some v) ∧
    ((jsGetV (mwOrEmpty w.rsnum) "ReferenceAllele" = some "" ∨
        jsGetV (mwOrEmpty w.rsnum) "ReferenceAllele" = none) →
      (mergeSnpData h w c).referenceAllele = h.referenceAllele) ∧
    (∀ v, v ≠ "" → jsGetV (mwOrEmpty w.rsnum) "position" = some v →
      (mergeSnpData h w c).position = parseIntJS v) ∧
    ((jsGetV (mwOrEmpty w.rsnum) "position" = some "" ∨
        jsGetV (mwOrEmpty w.rsnum) "position" = none) →
      (mergeSnpData h w c).position = h.position) ∧
    (∀ v, v ≠ "" → jsGetV (mwOrEmpty w.rsnum) "GMAF" = some v →
      (mergeSnpData h w c).gmaf = parseFloatJS v) ∧
    ((jsGetV (mwOrEmpty w.rsnum) "GMAF" = some "" ∨
        jsGetV (mwOrEmpty w.rsnum) "GMAF" = none) →
      (mergeSnpData h w c).gmaf = h.gmaf) := by
  refine ⟨?_, ?_, ?_, ?_, ?_, ?_, ?_, ?_, ?_, ?_, ?_, ?_, ?_, ?_⟩ <;>
    simp only [mergeSnpData]
  · intro v hv hg; rw [hg]; exact jsOrS_some_ne hv _
  · rintro (hg | hg) <;> rw [hg] <;> [exact jsOrS_some_empty _; exact jsOrS_none _]
  · intro v hv hg; rw [hg]; exact jsOrS_some_ne hv _
  · rintro (hg | hg) <;> rw [hg] <;> [exact jsOrS_some_empty _; exact jsOrS_none _]
  · intro v hv hg; rw [hg]; exact jsOrS_some_ne hv _
  · rintro (hg | hg) <;> rw [hg] <;> [exact jsOrS_some_empty _; exact jsOrS_none _]
  · intro v hv hg; rw [hg]; exact jsOrS_some_ne hv _
  · rintro (hg | hg) <;> rw [hg] <;> [exact jsOrS_some_empty _; exact jsOrS_none _]
  · intro v hv hg; rw [hg]; exact jsOrS_some_ne hv _
  · rintro (hg | hg) <;> rw [hg] <;> [exact jsOrS_some_empty _; exact jsOrS_none _]
  · intro v hv hg; rw [hg]; simp [truthyS, hv]
  · rintro (hg | hg) <;> rw [hg] <;> simp [truthyS]
  · intro v hv hg; rw [hg]; simp [truthyS, hv]
  · rintro (hg | hg) <;> rw [hg] <;> simp [truthyS]

/-- C1 (witness): at a concrete input with a non-empty template `Gene`, the
merged gene is the template's. -/
theorem c1_witness :
    (mergeSnpData { gene := some "X" } c6Wiki {}).gene = some "MTHFR" :=
  (c1_template_priority_amended { gene := some "X" } c6Wiki {}).1 "MTHFR"
    (by decide) (by decide)

/-- C2 (counterexample): a merged record with a non-empty genotype list still
has no `maxMagnitude`, refuting "if the final genotypes list is non-empty
then maxMagnitude is present and equals the maximum". -/
theorem c2_counterexample :
    (parseSnpediaContent exGenoInput).genotypes =
      [{ genotype := "A;A", magnitude := 2, summary := "common", color := "unknown" }] ∧
    (parseSnpediaContent exGenoInput).maxMagnitude = none := by
  decide

/-- C2 (amended): `maxMagnitude` is never derived anywhere in the pipeline:
the merge copies it verbatim from the structural partial, and no structural
sub-extractor ever assigns it, so every record produced by the entry point
has `maxMagnitude` absent, regardless of `genotypes`. (The maximum over
genotype magnitudes is computed only by the external storage collaborator.) -/
theorem c2_maxmagnitude_amended (input : SnpediaInput) :
    (parseSnpediaContent input).maxMagnitude = none ∧
    (mergeSnpData (parseHtmlContent input.doc) (parseWikiTemplates input.mw)
        (parseContentText input.wikitext)).maxMagnitude =
      (parseHtmlContent input.doc).maxMagnitude := by
  refine ⟨?_, rfl⟩
  have hmax := parseHtmlContent_maxMag input.doc
  simp [parseSnpediaContent, mergeSnpData, hmax]

/-- C3 (counterexample): citation lists `[{1, ∅}]` (structural) and
`[{1, T}, {2, ∅}]` (free text) merge to `[{1, ∅}, {2, ∅}]` — the later
duplicate's title `T` is **not** backfilled into the kept first occurrence,
refuting the claimed merged value `[{1, T}, {2, ∅}]`. -/
theorem c3_counterexample :
    (mergeSnpData c3Html {} c3Content).pmids =
      [{ pmid := some "1", title := none }, { pmid := some "2", title := none }] ∧
    (mergeSnpData c3Html {} c3Content).pmids ≠
      [{ pmid := some "1", title := some "T" }, { pmid := some "2", title := none }] := by
  decide

/-- C3 (amended): the merged citations are the concatenation of the
structural, free-text and template citation lists deduplicated by id, first
occurrence kept **verbatim** (titles of later duplicates are discarded, not
backfilled; backfilling happens only inside the HTML citation
sub-extractor): the result's ids are pairwise distinct, every entry is an
unmodified element of the concatenation, and every id of the concatenation
is represented. -/
theorem c3_citation_merge_amended (h : HtmlPart) (w : WikiData) (c : ContentData) :
    (mergeSnpData h w c).pmids = dedupByPmid (mergedCitationInput h w c) ∧
    (((mergeSnpData h w c).pmids).map (fun p => p.pmid)).Nodup ∧
    (∀ q ∈ (mergeSnpData h w c).pmids, q ∈ mergedCitationInput h w c) ∧
    (∀ q ∈ mergedCitationInput h w c,
      ∃ q', q' ∈ (mergeSnpData h w c).pmids ∧ q'.pmid = q.pmid) := by
  have he : (mergeSnpData h w c).pmids = dedupByPmid (mergedCitationInput h w c) := rfl
  refine ⟨he, ?_, ?_, ?_⟩
  · rw [he]; exact keys_nodup_dedupByPmidAux _ _
  · intro q hq; rw [he] at hq; exact mem_of_mem_dedupByPmidAux q _ _ hq
  · intro q hq
    rcases key_covered_dedupByPmidAux q _ [] hq with hseen | ⟨q', hq', hkey⟩
    · simp at hseen
    · exact ⟨q', by rw [he]; exact hq', hkey⟩

/-- C3 (witness): at the concrete inputs of the counterexample, the kept
first occurrence of id `1` is itself an element of the concatenated input. -/
theorem c3_witness :
    ({ pmid := some "1", title := none } : PmidInfo) ∈ mergedCitationInput c3Html {} c3Content :=
  (c3_citation_merge_amended c3Html {} c3Content).2.2.1
    { pmid := some "1", title := none } (by decide)

/-- C4: the merge computes `'rs' + rsnumData.rsid || htmlData.rsid`; since
`+` binds before `||`, a template extraction with no rsid produces the
always-truthy string `"rsundefined"` and the structural rsid `"rs123"` is
never used — the code contradicts the specified structural fallback. -/
theorem c4_rsid_concatenation_bug :
    (mergeSnpData c4Html {} {}).rsid = some "rsundefined" ∧
    (mergeSnpData c4Html {} {}).rsid ≠ c4Html.rsid := by
  decide

/-- C6 (counterexample): a found `rsnum` template that carries no `rsid`
field yields `hasTemplateData = false`, refuting "true iff the primary
template was found at all". -/
theorem c6_counterexample :
    c6Wiki.rsnum.isSome = true ∧
    (mergeSnpData {} c6Wiki {}).sourceData.hasTemplateData = false := by
  decide

/-- C6 (amended): `hasStructuralData` is true iff the structural extractor
produced an `id`; `hasTemplateData` is true iff the `rsnum` template yielded
a **non-empty `rsid` field** (not merely "was found"); `genotypeCount` and
`externalLinkCount` equal the lengths of the record's `genotypes` and
`externalLinks`. -/
theorem c6_provenance_amended (input : SnpediaInput) :
    ((parseSnpediaContent input).sourceData.hasHtmlData = true ↔
      ∃ s, (parseHtmlContent input.doc).rsid = some s) ∧
    ((parseSnpediaContent input).sourceData.hasTemplateData = true ↔
      ∃ v, jsGetV (mwOrEmpty (parseWikiTemplates input.mw).rsnum) "rsid" = some v ∧ v ≠ "") ∧
    (parseSnpediaContent input).sourceData.genotypeCount =
      (parseSnpediaContent input).genotypes.length ∧
    (parseSnpediaContent input).sourceData.externalLinkCount =
      (parseSnpediaContent input).externalLinks.length := by
  refine ⟨?_, ?_, rfl, rfl⟩
  · have hh : (parseSnpediaContent input).sourceData.hasHtmlData =
        truthyS (parseHtmlContent input.doc).rsid := rfl
    rw [hh, truthyS_iff]
    constructor
    · rintro ⟨v, hv, _⟩; exact ⟨v, hv⟩
    · rintro ⟨s, hs⟩
      refine ⟨s, hs, ?_⟩
      have hr := parseHtmlContent_rsid input.doc
      cases heq : firstCap tryRsCap input.doc.raw.data with
      | none => rw [heq] at hr; rw [hr] at hs; exact absurd hs (by simp)
      | some ds =>
        rw [heq] at hr
        rw [hr] at hs
        have hsv : s = "rs" ++ ds := (Option.some.inj hs).symm
        subst hsv
        intro hemp
        have hlen := congrArg String.length hemp
        rw [String.length_append] at hlen
        have h2 : ("rs").length = 2 := by decide
        have h0 : ("").length = 0 := by decide
        omega
  · have ht : (parseSnpediaContent input).sourceData.hasTemplateData =
        truthyS (jsGetV (mwOrEmpty (parseWikiTemplates input.mw).rsnum) "rsid") := rfl
    rw [ht, truthyS_iff]

/-- C9: the extraction pipeline is a pure function — byte-identical inputs
yield structurally equal records across calls. -/
theorem c9_idempotent_extraction (i j : SnpediaInput) (h : i = j) :
    parseSnpediaContent i = parseSnpediaContent j := by rw [h]

/-- C9 (witness): two runs on the empty input agree. -/
theorem c9_witness : parseSnpediaContent c9Input = parseSnpediaContent c9Input :=
  c9_idempotent_extraction c9Input c9Input rfl

/-- C5 (counterexample): the trait regex `/\[\[([^\]]+)\]\]/g` has no
exclusion for `rs` links — `[[rs123]]` lands in `traits` (lowercased) *and*
in `relatedSNPs`, refuting "a link of the form `[[rs<digits>]]` is excluded
from traits". -/
theorem c5_counterexample :
    (parseContentText "see [[rs123]] and [[Asthma]]").traits = ["rs123", "asthma"] ∧
    (parseContentText "see [[rs123]] and [[Asthma]]").relatedSNPs = ["rs123"] := by
  decide

/-- C5 (amended): every double-bracketed link contributes its
bracket-stripped, lowercased text to `traits` (deduplicated, first
occurrence kept) — **including** `[[rs<digits>]]` links, which are not
excluded; every `[[rs<digits>]]` link additionally contributes its
bracket-stripped text verbatim to `relatedSNPs` (deduplicated); both lists
contain exactly the texts of their respective matches. -/
theorem c5_traits_amended (text : String) :
    ((parseContentText text).traits).Nodup ∧
    ((parseContentText text).relatedSNPs).Nodup ∧
    (∀ m ∈ globalScan tryBracket text.data,
      jsLower (stripBrackets m) ∈ (parseContentText text).traits) ∧
    (∀ t ∈ (parseContentText text).traits,
      ∃ m ∈ globalScan tryBracket text.data, t = jsLower (stripBrackets m)) ∧
    (∀ m ∈ globalScan tryRsLink text.data,
      stripBrackets m ∈ (parseContentText text).relatedSNPs) ∧
    (∀ r ∈ (parseContentText text).relatedSNPs,
      ∃ m ∈ globalScan tryRsLink text.data, r = stripBrackets m) := by
  have ht : (parseContentText text).traits =
      dedupFirst ((globalScan tryBracket text.data).map
        (fun m => jsLower (stripBrackets m))) := rfl
  have hr : (parseContentText text).relatedSNPs =
      dedupFirst ((globalScan tryRsLink text.data).map stripBrackets) := rfl
  refine ⟨?_, ?_, ?_, ?_, ?_, ?_⟩
  · rw [ht]; exact nodup_dedupFirst _
  · rw [hr]; exact nodup_dedupFirst _
  · intro m hm; rw [ht, mem_dedupFirst]; exact List.mem_map_of_mem _ hm
  · intro t htm
    rw [ht, mem_dedupFirst] at htm
    rcases List.mem_map.mp htm with ⟨m, hm, heq⟩
    exact ⟨m, hm, heq.symm⟩
  · intro m hm; rw [hr, mem_dedupFirst]; exact List.mem_map_of_mem _ hm
  · intro r hrm
    rw [hr, mem_dedupFirst] at hrm
    rcases List.mem_map.mp hrm with ⟨m, hm, heq⟩
    exact ⟨m, hm, heq.symm⟩

/-- C5 (witness): on a concrete wikitext, `[[Asthma]]` reaches `traits`
lowercased and `[[rs9]]` reaches `relatedSNPs` verbatim. -/
theorem c5_witness :
    jsLower (stripBrackets "[[Asthma]]") ∈
      (parseContentText "x [[Asthma]] y [[rs9]]").traits ∧
    stripBrackets "[[rs9]]" ∈
      (parseContentText "x [[Asthma]] y [[rs9]]").relatedSNPs :=
  ⟨(c5_traits_amended "x [[Asthma]] y [[rs9]]").2.2.1 "[[Asthma]]" (by decide),
   (c5_traits_amended "x [[Asthma]] y [[rs9]]").2.2.2.2.1 "[[rs9]]" (by decide)⟩

/-- Boundary magnitudes 0, 1.9, 2, 2.9, 3 and 10 for the risk classifier. -/
def c7Data : ComprehensiveSnpData :=
  { genotypes :=
    [ { genotype := "(A;A)", magnitude := 0, summary := "s0", color := "green" }
    , { genotype := "(A;G)", magnitude := mkRat 19 10, summary := "s1", color := "green" }
    , { genotype := "(G;G)", magnitude := 2, summary := "s2", color := "white" }
    , { genotype := "(C;C)", magnitude := mkRat 29 10, summary := "s3", color := "white" }
    , { genotype := "(C;T)", magnitude := 3, summary := "s4", color := "red" }
    , { genotype := "(T;T)", magnitude := 10, summary := "s5", color := "red" } ] }

/-- C7: the risk classifier returns one entry per genotype in order, copying
genotype, magnitude and summary; the tier is `HIGH` iff magnitude ≥ 3,
`MEDIUM` iff 2 ≤ magnitude < 3 and `LOW` iff magnitude < 2; it is a total
pure function, and the boundary magnitudes {0, 1.9, 2, 2.9, 3, 10} classify
to {LOW, LOW, MEDIUM, MEDIUM, HIGH, HIGH}. -/
theorem c7_risk_classifier (data : ComprehensiveSnpData) :
    (analyzeRiskLevels data).length = data.genotypes.length ∧
    List.Forall₂ (fun (g : GenotypeInfo) (r : RiskAssessment) =>
      r.genotype = g.genotype ∧ r.magnitude = g.magnitude ∧ r.summary = g.summary ∧
      ((r.riskLevel = RiskLevel.HIGH) ↔ (3 : ℚ) ≤ g.magnitude) ∧
      ((r.riskLevel = RiskLevel.MEDIUM) ↔ ((2 : ℚ) ≤ g.magnitude ∧ g.magnitude < 3)) ∧
      ((r.riskLevel = RiskLevel.LOW) ↔ g.magnitude < 2))
      data.genotypes (analyzeRiskLevels data) ∧
    (analyzeRiskLevels c7Data).map (fun r => r.riskLevel) =
      [RiskLevel.LOW, RiskLevel.LOW, RiskLevel.MEDIUM, RiskLevel.MEDIUM,
       RiskLevel.HIGH, RiskLevel.HIGH] := by
  refine ⟨by simp [analyzeRiskLevels], ?_, by decide⟩
  unfold analyzeRiskLevels
  rw [List.forall₂_map_right_iff, List.forall₂_same]
  intro g hg
  dsimp only
  refine ⟨rfl, rfl, rfl, ?_, ?_, ?_⟩
  · split_ifs with h3 h2
    · simp [h3]
    · simp [h3]
    · simp [h3]
  · split_ifs with h3 h2
    · constructor
      · intro hcon; exact hcon.elim
      · rintro ⟨-, hlt⟩; exfalso; linarith
    · constructor
      · intro _; exact ⟨h2, not_le.mp h3⟩
      · intro _; rfl
    · constructor
      · intro hcon; exact hcon.elim
      · rintro ⟨h2', -⟩; exact absurd h2' h2
  · split_ifs with h3 h2
    · constructor
      · intro hcon; exact hcon.elim
      · intro hlt; exfalso; linarith
    · constructor
      · intro hcon; exact hcon.elim
      · intro hlt; exfalso; linarith
    · simp [not_le.mp h2]

/-- On a document with no tables, no anchors, no population script and no
`rs<digits>` text, the structural extractor produces the empty partial. -/
theorem parseHtmlContent_empty (doc : HtmlDoc)
    (htab : doc.tables = []) (hanc : doc.anchors = [])
    (hpop : doc.popScript = none)
    (hrs : firstCap tryRsCap doc.raw.data = none) :
    parseHtmlContent doc = {} := by
  obtain ⟨tabs, ancs, pop, raw⟩ := doc
  simp only at htab hanc hpop hrs
  subst htab hanc hpop
  simp [parseHtmlContent, extractBasicInfoFromHtml, extractGenotypeInfoFromHtml,
    extractExternalLinksFromHtml, extractPmidsFromHtml,
    extractPopulationDataFromHtml, extractClinicalInfoFromHtml, hrs]

/-- An input whose page has no tables but mentions `rs1` in its text. -/
def c8Input : SnpediaInput :=
  { doc := { raw := "this page mentions rs1 in passing" }
  , wikitext := ""
  , mw := fun _ => [] }

/-- C8 (counterexample): a page with **no tables at all** whose text merely
contains `rs1` still yields `hasStructuralData = true` (the rsid is scraped
from the whole serialized page), refuting the claimed
`provenance.hasStructuralData = false` under the stated hypotheses. -/
theorem c8_counterexample :
    c8Input.doc.tables = [] ∧
    (parseSnpediaContent c8Input).sourceData.hasHtmlData = true := by
  decide

/-- C8 (amended): when the markup has no tables, no anchors, no population
script and no `rs<digits>` text anywhere, and the wikitext yields no
template invocations and no `PMID` template matches, the entry point returns
(never raises — it is a total function) a record with empty genotypes, empty
citations, no gene/chromosome/position and all-zero provenance. -/
theorem c8_graceful_degradation_amended (input : SnpediaInput)
    (htab : input.doc.tables = []) (hanc : input.doc.anchors = [])
    (hpop : input.doc.popScript = none)
    (hrs : firstCap tryRsCap input.doc.raw.data = none)
    (hmw : ∀ n, input.mw n = [])
    (hpm : globalScan tryPmidTpl input.wikitext.data = []) :
    (parseSnpediaContent input).genotypes = [] ∧
    (parseSnpediaContent input).pmids = [] ∧
    (parseSnpediaContent input).gene = none ∧
    (parseSnpediaContent input).chromosome = none ∧
    (parseSnpediaContent input).position = none ∧
    (parseSnpediaContent input).sourceData =
      { hasHtmlData := false, hasTemplateData := false
      , genotypeCount := 0, externalLinkCount := 0 } := by
  have hempty := parseHtmlContent_empty input.doc htab hanc hpop hrs
  have hwiki : parseWikiTemplates input.mw = {} := by
    simp [parseWikiTemplates, hmw]
  have hcontent : (parseContentText input.wikitext).pmids =
      ((globalScan tryPmidTpl input.wikitext.data).map pmidOfTplMatch).reduceOption := rfl
  rw [hpm] at hcontent
  simp only [List.map_nil, List.reduceOption_nil] at hcontent
  refine ⟨?_, ?_, ?_, ?_, ?_, ?_⟩ <;>
    simp [parseSnpediaContent, mergeSnpData, hempty, hwiki, hcontent,
      mwOrEmpty, jsGetV, jsLookup, jsOrS, truthyS, dedupByPmid, dedupByPmidAux,
      HtmlPart.pmids, WikiData.pmidAuto, WikiData.pmid]

/-- C8 (witness): the amended theorem applied to the fully empty input. -/
theorem c8_witness :
    (parseSnpediaContent c9Input).genotypes = [] ∧
    (parseSnpediaContent c9Input).pmids = [] ∧
    (parseSnpediaContent c9Input).gene = none ∧
    (parseSnpediaContent c9Input).chromosome = none ∧
    (parseSnpediaContent c9Input).position = none ∧
    (parseSnpediaContent c9Input).sourceData =
      { hasHtmlData := false, hasTemplateData := false
      , genotypeCount := 0, externalLinkCount := 0 } :=
  c8_graceful_degradation_amended c9Input rfl rfl rfl (by decide)
    (fun _ => rfl) (by decide)

/-- Keys other than the ones assigned by the inner series loop are left
untouched. -/
theorem genoFold_lookup_ne :
    ∀ (series : List SeriesEntry) (g0 idx : Nat) (inner : List (String × Option ℚ))
      (key : String), (∀ j, g0 < j → key ≠ genoKey j) →
      jsLookup (genoFold series g0 idx inner) key = jsLookup inner key := by
  intro series
  induction series with
  | nil => intro g0 idx inner key _; rfl
  | cons gs rest ih =>
    intro g0 idx inner key hk
    show jsLookup (genoFold rest (g0 + 1) idx _) key = _
    rw [ih (g0 + 1) idx _ key (fun j hj => hk j (by omega))]
    exact jsLookup_jsSet_ne _ _ (hk (g0 + 1) (by omega))

/-- The inner series loop assigns key `geno<g0+k+1>` the parsed frequency of
series `k` at population index `idx`. -/
theorem genoFold_lookup_at :
    ∀ (series : List SeriesEntry) (g0 idx : Nat) (inner : List (String × Option ℚ))
      (k : Nat) (hk : k < series.length),
      jsLookup (genoFold series g0 idx inner) (genoKey (g0 + k + 1)) =
        some (parseFloatJS (freqStrAt (series.get ⟨k, hk⟩) idx)) := by
  intro series
  induction series with
  | nil => intro g0 idx inner k hk; exact absurd hk (by simp)
  | cons gs rest ih =>
    intro g0 idx inner k hk
    cases k with
    | zero =>
      show jsLookup (genoFold rest (g0 + 1) idx
        (jsSet inner (genoKey (g0 + 1)) (parseFloatJS (freqStrAt gs idx))))
        (genoKey (g0 + 0 + 1)) = _
      rw [genoFold_lookup_ne rest (g0 + 1) idx _ _
        (fun j hj heq => by have := genoKey_inj heq; omega)]
      exact jsLookup_jsSet_self inner _ _
    | succ k' =>
      have harith : g0 + (k' + 1) + 1 = (g0 + 1) + k' + 1 := by omega
      show jsLookup (genoFold rest (g0 + 1) idx _) (genoKey (g0 + (k' + 1) + 1)) = _
      rw [harith]
      exact ih (g0 + 1) idx _ k' (by simpa using hk)

/-- Populations not in the remaining label list keep their mapping. -/
theorem popFold_lookup_ne (series : List SeriesEntry) :
    ∀ (labels : List String) (idx0 : Nat)
      (freqs : List (String × List (String × Option ℚ))) (pop : String),
      pop ∉ labels → jsLookup (popFold series labels idx0 freqs) pop = jsLookup freqs pop := by
  intro labels
  induction labels with
  | nil => intro idx0 freqs pop _; rfl
  | cons p rest ih =>
    intro idx0 freqs pop hpop
    show jsLookup (popFold series rest (idx0 + 1) _) pop = _
    rw [ih (idx0 + 1) _ pop (fun hmem => hpop (List.mem_cons_of_mem _ hmem))]
    exact jsLookup_jsSet_ne _ _ (fun heq => hpop (heq ▸ List.mem_cons_self _ _))

/-- With pairwise-distinct labels, the outer loop assigns population `pop`
(at label index `i`) its per-series frequency object built at index
`idx0 + i`. -/
theorem popFold_lookup_at (series : List SeriesEntry) :
    ∀ (labels : List String) (idx0 : Nat)
      (freqs : List (String × List (String × Option ℚ))) (i : Nat) (pop : String),
      labels.Nodup → labels.get? i = some pop →
      jsLookup (popFold series labels idx0 freqs) pop =
        some (genoFold series 0 (idx0 + i) []) := by
  intro labels
  induction labels with
  | nil => intro idx0 freqs i pop _ hget; simp at hget
  | cons p rest ih =>
    intro idx0 freqs i pop hnd hget
    cases i with
    | zero =>
      have hp : p = pop := Option.some.inj hget
      subst hp
      have hnotin : p ∉ rest := (List.nodup_cons.mp hnd).1
      rw [Nat.add_zero]
      show jsLookup (popFold series rest (idx0 + 1) _) p = _
      rw [popFold_lookup_ne series rest (idx0 + 1) _ p hnotin,
        jsLookup_jsSet_self]
    | succ i' =>
      have harith : idx0 + (i' + 1) = (idx0 + 1) + i' := by omega
      show jsLookup (popFold series rest (idx0 + 1) _) pop = _
      rw [harith]
      exact ih (idx0 + 1) _ i' pop (List.nodup_cons.mp hnd).2 hget

/-- C10: once the script block's labels and series arrays both parsed, the
extractor attaches population data in which every (distinct) population
label carries an entry for every series under the synthetic key `geno<N>`;
a series data point that is missing, `null`, or lacking a value at that
population's index contributes the frequency `0` rather than an omitted
entry. -/
theorem c10_population_zero_fill (doc : HtmlDoc) (r : HtmlPart)
    (labels : List String) (series : List SeriesEntry)
    (hscript : doc.popScript = some (labels, series)) (hnd : labels.Nodup)
    (i : Nat) (pop : String) (hpop : labels.get? i = some pop) :
    ∃ pd, (extractPopulationDataFromHtml doc r).populationData = some pd ∧
      pd.populations = labels ∧
      jsLookup pd.frequencies pop = some (genoFold series 0 i []) ∧
      ∀ k, (hk : k < series.length) →
        jsLookup (genoFold series 0 i []) (genoKey (k + 1)) =
          some (parseFloatJS (freqStrAt (series.get ⟨k, hk⟩) i)) ∧
        (((series.get ⟨k, hk⟩).data.get? i = none ∨
          (series.get ⟨k, hk⟩).data.get? i = some none ∨
          (∃ pt, (series.get ⟨k, hk⟩).data.get? i = some (some pt) ∧
            (pt.value = none ∨ pt.value = some ""))) →
          jsLookup (genoFold series 0 i []) (genoKey (k + 1)) = some (some 0)) := by
  refine ⟨{ populations := labels, frequencies := popFold series labels 0 [] }, ?_, rfl, ?_, ?_⟩
  · rw [extractPopulationDataFromHtml, hscript]
  · have := popFold_lookup_at series labels 0 [] i pop hnd hpop
    rwa [Nat.zero_add] at this
  · intro k hk
    have hat := genoFold_lookup_at series 0 i [] k hk
    rw [Nat.zero_add] at hat
    refine ⟨hat, ?_⟩
    intro hmiss
    have hzero : freqStrAt (series.get ⟨k, hk⟩) i = "0" := by
      rcases hmiss with hnone | hnull | ⟨pt, hpt, hval⟩
      · unfold freqStrAt; rw [hnone]
      · unfold freqStrAt; rw [hnull]
      · unfold freqStrAt
        rw [hpt]
        show (match pt.value with
              | some v => if v ≠ "" then v else "0"
              | none => "0") = "0"
        rcases hval with hv | hv
        · rw [hv]
        · rw [hv]; rfl
    rw [hat, hzero]
    have h0 : parseFloatJS "0" = some 0 := by decide
    rw [h0]

/-- One series whose data has a real point at index 0 and a `null` at
index 1. -/
def ser10 : List SeriesEntry :=
  [ { data := [some { value := some "12.5" }, none] } ]

/-- A document carrying parsed population script data for two populations. -/
def doc10 : HtmlDoc := { popScript := some (["CEU", "YRI"], ser10) }

/-- C10 (witness): for the second population (whose data point is `null`),
the frequency under `geno1` is zero-filled. -/
theorem c10_witness :
    ∃ pd, (extractPopulationDataFromHtml doc10 {}).populationData = some pd ∧
      pd.populations = ["CEU", "YRI"] ∧
      jsLookup pd.frequencies "YRI" = some (genoFold ser10 0 1 []) ∧
      jsLookup (genoFold ser10 0 1 []) (genoKey 1) = some (some 0) := by
  obtain ⟨pd, h1, h2, h3, h4⟩ :=
    c10_population_zero_fill doc10 {} ["CEU", "YRI"] ser10 rfl (by decide) 1 "YRI" rfl
  exact ⟨pd, h1, h2, h3, (h4 0 (by decide)).2 (Or.inr (Or.inl (by decide)))⟩

end Snpedia
